import Mathlib

/-!
Verification of the Budget web application core: the relational data model
(users, budgets, tabs, expenses), the SQL cascade/constraint semantics from
the migration files, and the request handlers under pages/api.

Ids are modelled as natural numbers (UUIDs are opaque, only equality is
used).  Monetary amounts are modelled as rationals (DECIMAL columns).
Each HTTP handler becomes a pure function from a database state and the
request inputs to a response paired with the resulting database state.
-/

namespace BudgetApp

/-- User profile row (user_profiles table).  `budget_id` is the nullable
active-budget reference added by migration 20251216160148. -/
structure Profile where
  id : Nat
  budget_id : Option Nat
deriving DecidableEq, Repr

/-- Budget row (budgets table, migration 20251216160058). -/
structure Budget where
  id : Nat
  user_id : Nat
  name : String
  description : Option String
  currency_code : String
deriving DecidableEq, Repr

/-- Budget tab row (budget_tabs table; amount_allocated added by migration
20251217190000). -/
structure Tab where
  id : Nat
  budget_id : Nat
  name : String
  description : Option String
  color : Option String
  amount_allocated : Rat
  position : Int
deriving DecidableEq, Repr

/-- Expense row (expenses table, migration 20251218120000). -/
structure Expense where
  id : Nat
  budget_id : Nat
  tab_id : Nat
  user_id : Nat
  amount : Rat
  description : Option String
  expense_date : String
deriving DecidableEq, Repr

/-- Database state: the four tables the claims range over. -/
structure DB where
  profiles : List Profile
  budgets : List Budget
  budget_tabs : List Tab
  expenses : List Expense
deriving DecidableEq, Repr

/-- HTTP-style response: a success status with a payload, or an error with
status code, error label and message (the JSON `error` and `message`
fields the handlers return). -/
inductive Resp (α : Type) where
  | ok (status : Nat) (payload : α)
  | err (status : Nat) (error : String) (message : String)
deriving DecidableEq, Repr

/-- Status code of a response. -/
def Resp.status {α : Type} : Resp α → Nat
  | .ok s _ => s
  | .err s _ _ => s

/-- Lookup of a budget row by primary key (`.eq('id', id).single()`). -/
def findBudget (db : DB) (budgetId : Nat) : Option Budget :=
  db.budgets.find? (fun b => b.id == budgetId)

/-- Lookup of a profile row by primary key. -/
def findProfile (db : DB) (userId : Nat) : Option Profile :=
  db.profiles.find? (fun p => p.id == userId)

/-- Tabs of a budget (`.from('budget_tabs').eq('budget_id', id)`). -/
def tabsOf (db : DB) (budgetId : Nat) : List Tab :=
  db.budget_tabs.filter (fun t => t.budget_id == budgetId)

/-- Expenses of a budget (`.from('expenses').eq('budget_id', id)`). -/
def expensesOf (db : DB) (budgetId : Nat) : List Expense :=
  db.expenses.filter (fun e => e.budget_id == budgetId)

/-- Ownership check from verifyBudgetOwnership in pages/api/budgets/[id].js:
fetch the budget by id; a missing row or a user-id mismatch both yield
`false`, with no distinction between the two cases. -/
def verifyBudgetOwnership (db : DB) (budgetId userId : Nat) : Bool :=
  match findBudget db budgetId with
  | none => false
  | some b => b.user_id == userId

/-- Whitespace trim of the JS String.prototype.trim calls, written as a
structural recursion over the character list so that it evaluates inside
the kernel. -/
def jsTrim (s : String) : String :=
  String.mk (((s.data.dropWhile Char.isWhitespace).reverse.dropWhile
    Char.isWhitespace).reverse)

/-- Currency-code check: the JS regex `^[A-Z]{3}$` used on budget create and
update (exactly three ASCII uppercase letters). -/
def isValidCurrency (s : String) : Bool :=
  s.length == 3 && s.toList.all (fun c => 'A' ≤ c && c ≤ 'Z')

/-- Normalization `value?.trim() || null` applied to optional description
fields: a missing or blank value becomes null, otherwise it is trimmed. -/
def normDescription (d : Option String) : Option String :=
  match d with
  | none => none
  | some s => if jsTrim s = "" then none else some (jsTrim s)

/-- Shared 404 body used by every ownership guard: status 404, error label
"Not found", and a message that does not distinguish a missing budget from
a budget owned by someone else. -/
def budgetNotFound {α : Type} : Resp α :=
  Resp.err 404 "Not found" "Budget not found or you do not have permission to access it"

/-- Per-tab spending view from the GET branch of pages/api/budgets/[id].js:
`spent` is the hardcoded zero of the source (the `const spent = 0` line
with its TODO comment), not an aggregate over the expenses table. -/
structure TabView where
  tab : Tab
  amount_allocated : Rat
  amount_spent : Rat
  amount_left : Rat
  spent_percentage : Rat
deriving DecidableEq, Repr

/-- Budget totals as returned by the GET branch of pages/api/budgets/[id].js. -/
structure Totals where
  allocated : Rat
  spent : Rat
  left : Rat
deriving DecidableEq, Repr

/-- Payload of a successful GET /api/budgets/[id]. -/
structure BudgetView where
  budget : Budget
  tabs : List TabView
  totals : Totals
deriving DecidableEq, Repr

/-- Per-tab computation of the tabsWithSpending map in the GET branch. -/
def tabView (t : Tab) : TabView :=
  let allocated := t.amount_allocated
  let spent : Rat := 0
  let left := allocated - spent
  { tab := t
    amount_allocated := allocated
    amount_spent := spent
    amount_left := left
    spent_percentage := if 0 < allocated then spent / allocated * 100 else 0 }

/-- Insertion step for ordering tabs by ascending position. -/
def insertByPos (t : Tab) : List Tab → List Tab
  | [] => [t]
  | x :: xs => if t.position ≤ x.position then t :: x :: xs else x :: insertByPos t xs

/-- Ordering of tabs by position (`.order('position', ascending: true)`). -/
def sortTabs (l : List Tab) : List Tab :=
  l.foldr insertByPos []

/-- GET /api/budgets/[id] from pages/api/budgets/[id].js: ownership guard,
then the budget with its tabs annotated by the stubbed spending numbers and
the reduced totals. -/
def getBudget (db : DB) (userId budgetId : Nat) : Resp BudgetView :=
  if !verifyBudgetOwnership db budgetId userId then
    budgetNotFound
  else
    match findBudget db budgetId with
    | none => Resp.err 500 "Database error" "Failed to fetch budget"
    | some b =>
      let views := (sortTabs (tabsOf db budgetId)).map tabView
      let totalAllocated := (views.map (fun v => v.amount_allocated)).sum
      let totalSpent := (views.map (fun v => v.amount_spent)).sum
      Resp.ok 200
        { budget := b
          tabs := views
          totals :=
            { allocated := totalAllocated
              spent := totalSpent
              left := totalAllocated - totalSpent } }

/-- Inputs of POST /api/budgets (pages/api/budgets/index.js). -/
structure CreateBudgetInput where
  name : Option String
  description : Option String
  currency_code : Option String
deriving DecidableEq, Repr

/-- Name validation `!name || name.trim() === ''`: accepted iff the name is
present and nonempty after trimming. -/
def givenName (n : Option String) : Bool :=
  match n with
  | none => false
  | some s => jsTrim s != ""

/-- JS truthiness of the optional currency string (`currency_code && ...`):
a missing or empty value counts as not provided. -/
def currencyProvided (c : Option String) : Bool :=
  match c with
  | none => false
  | some s => s != ""

/-- Currency rejection on budget creation: only a provided (truthy) value is
tested against the regex. -/
def createCurrencyBad (c : Option String) : Bool :=
  currencyProvided c && !isValidCurrency (c.getD "")

/-- Fresh budget id, standing in for gen_random_uuid(): one more than the
largest id in the table. -/
def freshBudgetId (db : DB) : Nat :=
  (db.budgets.map (fun b => b.id)).foldr max 0 + 1

/-- Active-budget reference of a user: the `budget_id` column of the
profile row, as read by the handlers before create and delete. -/
def activeBudgetOf (db : DB) (userId : Nat) : Option Nat :=
  (findProfile db userId).bind (fun p => p.budget_id)

/-- Profile update `update({ budget_id: v }).eq('id', userId)`. -/
def setActiveBudget (db : DB) (userId : Nat) (v : Option Nat) : DB :=
  { db with profiles := db.profiles.map (fun p =>
      if p.id == userId then { p with budget_id := v } else p) }

/-- POST /api/budgets from pages/api/budgets/index.js: profile lookup, name
and currency validation, budget insert, then setting the profile's
active-budget reference when it was previously empty. -/
def createBudget (db : DB) (userId : Nat) (input : CreateBudgetInput) :
    Resp Budget × DB :=
  match findProfile db userId with
  | none =>
    (Resp.err 404 "Profile not found"
      "User profile does not exist. Please complete your profile setup.", db)
  | some _ =>
    if !givenName input.name then
      (Resp.err 400 "Validation error" "Budget name is required", db)
    else if createCurrencyBad input.currency_code then
      (Resp.err 400 "Validation error"
        "Currency code must be a valid 3-letter ISO 4217 code (e.g., USD, EUR, GBP)", db)
    else
      let newBudget : Budget :=
        { id := freshBudgetId db
          user_id := userId
          name := jsTrim (input.name.getD "")
          description := normDescription input.description
          currency_code :=
            if currencyProvided input.currency_code then input.currency_code.getD ""
            else "USD" }
      let db1 : DB := { db with budgets := db.budgets ++ [newBudget] }
      let db2 :=
        if activeBudgetOf db1 userId = none then
          setActiveBudget db1 userId (some newBudget.id)
        else db1
      (Resp.ok 201 newBudget, db2)

/-- Store-level delete of a budget row with the declared foreign-key
behavior of the migrations: ON DELETE CASCADE on budget_tabs.budget_id and
expenses.budget_id, ON DELETE SET NULL on user_profiles.budget_id. -/
def cascadeDeleteBudget (db : DB) (budgetId : Nat) : DB :=
  { profiles := db.profiles.map (fun p =>
      if p.budget_id == some budgetId then { p with budget_id := none } else p)
    budgets := db.budgets.filter (fun b => !(b.id == budgetId))
    budget_tabs := db.budget_tabs.filter (fun t => !(t.budget_id == budgetId))
    expenses := db.expenses.filter (fun e => !(e.budget_id == budgetId)) }

/-- DELETE /api/budgets/[id] from pages/api/budgets/[id].js: ownership
guard, read of the caller's active-budget reference, cascading store
delete, then an explicit clearing of the reference when the deleted budget
was the active one. -/
def deleteBudget (db : DB) (userId budgetId : Nat) : Resp Unit × DB :=
  if !verifyBudgetOwnership db budgetId userId then
    (budgetNotFound, db)
  else
    let pre := activeBudgetOf db userId
    let db1 := cascadeDeleteBudget db budgetId
    let db2 :=
      if pre == some budgetId then setActiveBudget db1 userId none else db1
    (Resp.ok 200 (), db2)

/-- Inputs of PUT /api/budgets/[id]. -/
structure UpdateBudgetInput where
  name : Option String
  description : Option String
  currency_code : Option String
deriving DecidableEq, Repr

/-- Rejection of an explicitly supplied blank name on update. -/
def nameGivenEmpty (n : Option String) : Bool :=
  match n with
  | none => false
  | some s => jsTrim s == ""

/-- Currency rejection on update: any supplied value is tested against the
regex (no truthiness shortcut here, unlike creation). -/
def updateCurrencyBad (c : Option String) : Bool :=
  match c with
  | none => false
  | some s => !isValidCurrency s

/-- True when the update request carries none of the updatable fields. -/
def noBudgetUpdates (input : UpdateBudgetInput) : Bool :=
  input.name.isNone && input.description.isNone && input.currency_code.isNone

/-- Field application of a budget update. -/
def applyBudgetUpdates (b : Budget) (input : UpdateBudgetInput) : Budget :=
  let b1 := match input.name with
    | some n => { b with name := jsTrim n }
    | none => b
  let b2 := match input.description with
    | some d => { b1 with description := if jsTrim d = "" then none else some (jsTrim d) }
    | none => b1
  match input.currency_code with
  | some c => { b2 with currency_code := c }
  | none => b2

/-- PUT /api/budgets/[id] from pages/api/budgets/[id].js. -/
def updateBudget (db : DB) (userId budgetId : Nat) (input : UpdateBudgetInput) :
    Resp Budget × DB :=
  if !verifyBudgetOwnership db budgetId userId then
    (budgetNotFound, db)
  else if nameGivenEmpty input.name then
    (Resp.err 400 "Validation error" "Budget name cannot be empty", db)
  else if updateCurrencyBad input.currency_code then
    (Resp.err 400 "Validation error"
      "Currency code must be a valid 3-letter ISO 4217 code", db)
  else if noBudgetUpdates input then
    (Resp.err 400 "Validation error"
      "No valid fields to update. Only name, description, and currency can be updated.", db)
  else
    let db1 : DB := { db with budgets := db.budgets.map (fun b =>
      if b.id == budgetId then applyBudgetUpdates b input else b) }
    match findBudget db1 budgetId with
    | some b => (Resp.ok 200 b, db1)
    | none => (Resp.err 500 "Database error" "Failed to update budget", db1)

/-- Inputs of POST /api/budgets/[id]/tabs (the tabs endpoint). -/
structure CreateTabInput where
  name : Option String
  description : Option String
  amount_allocated : Option Rat
  color : Option String
  position : Option Int
deriving DecidableEq, Repr

/-- Fresh tab id, standing in for gen_random_uuid(). -/
def freshTabId (db : DB) : Nat :=
  (db.budget_tabs.map (fun t => t.id)).foldr max 0 + 1

/-- Maximum position among a list of tabs, modelling the query
`.select('position').order('position', descending).limit(1)`. -/
def maxPositionOf (l : List Tab) : Option Int :=
  match l.map (fun t => t.position) with
  | [] => none
  | p :: ps => some (ps.foldl max p)

/-- Default position of a new tab when the request leaves it unset:
`existingTabs.length > 0 ? (existingTabs[0].position || 0) + 1 : 0`, where
the `|| 0` maps a zero position to zero before adding one. -/
def computedTabPosition (db : DB) (budgetId : Nat) : Int :=
  match maxPositionOf (tabsOf db budgetId) with
  | none => 0
  | some p => (if p == 0 then 0 else p) + 1

/-- Normalization `color || null` of the optional color field. -/
def normColor (c : Option String) : Option String :=
  match c with
  | none => none
  | some s => if s = "" then none else some s

/-- POST /api/budgets/[id]/tabs: ownership guard, name and allocation
validation, computed position, duplicate-name check against the
(budget_id, name) pair, then the insert. -/
def createTab (db : DB) (userId budgetId : Nat) (input : CreateTabInput) :
    Resp Tab × DB :=
  if !verifyBudgetOwnership db budgetId userId then
    (budgetNotFound, db)
  else if !givenName input.name then
    (Resp.err 400 "Validation error" "Tab name is required", db)
  else
    let allocated := input.amount_allocated.getD 0
    if allocated < 0 then
      (Resp.err 400 "Validation error"
        "Amount allocated must be a valid number >= 0", db)
    else
      let tabPosition :=
        match input.position with
        | some p => p
        | none => computedTabPosition db budgetId
      let n := jsTrim (input.name.getD "")
      match db.budget_tabs.find? (fun t => t.budget_id == budgetId && t.name == n) with
      | some _ =>
        (Resp.err 409 "Duplicate tab name"
          "A tab with this name already exists in this budget", db)
      | none =>
        let newTab : Tab :=
          { id := freshTabId db
            budget_id := budgetId
            name := n
            description := normDescription input.description
            color := normColor input.color
            amount_allocated := allocated
            position := tabPosition }
        (Resp.ok 201 newTab, { db with budget_tabs := db.budget_tabs ++ [newTab] })

/-- Ownership check of verifyTabOwnership in the tab update endpoint: the
tab must exist, belong to the stated budget, and that budget must belong to
the caller; every failure collapses to the same invalid outcome. -/
def verifyTabOwnership (db : DB) (budgetId tabId userId : Nat) : Bool :=
  match db.budget_tabs.find? (fun t => t.id == tabId) with
  | none => false
  | some t =>
    if !(t.budget_id == budgetId) then false
    else verifyBudgetOwnership db budgetId userId

/-- Inputs of PUT /api/budgets/[id]/tabs/[tabId]. -/
structure UpdateTabInput where
  name : Option String
  description : Option String
  amount_allocated : Option Rat
  color : Option String
  position : Option Int
deriving DecidableEq, Repr

/-- Rejection of an explicitly supplied negative allocation on update. -/
def allocatedGivenNegative (a : Option Rat) : Bool :=
  match a with
  | none => false
  | some q => q < 0

/-- Duplicate-name check on rename, excluding the tab being updated
(`.eq('budget_id', id).eq('name', ...).neq('id', tabId)`). -/
def dupRename (db : DB) (budgetId tabId : Nat) (newName : Option String) : Bool :=
  match newName with
  | none => false
  | some n =>
    (db.budget_tabs.find? (fun t =>
      t.budget_id == budgetId && t.name == n && !(t.id == tabId))).isSome

/-- True when the tab update request carries none of the updatable fields. -/
def noTabUpdates (input : UpdateTabInput) : Bool :=
  input.name.isNone && input.description.isNone && input.amount_allocated.isNone
    && input.color.isNone && input.position.isNone

/-- Field application of a tab update. -/
def applyTabUpdates (t : Tab) (input : UpdateTabInput) : Tab :=
  let t1 := match input.name with
    | some n => { t with name := jsTrim n }
    | none => t
  let t2 := match input.description with
    | some d => { t1 with description := if jsTrim d = "" then none else some (jsTrim d) }
    | none => t1
  let t3 := match input.amount_allocated with
    | some a => { t2 with amount_allocated := a }
    | none => t2
  let t4 := match input.color with
    | some c => { t3 with color := if c = "" then none else some c }
    | none => t3
  match input.position with
  | some p => { t4 with position := p }
  | none => t4

/-- PUT /api/budgets/[id]/tabs/[tabId]: tab-ownership guard, per-field
validation in source order, rename-duplicate check, then the update. -/
def updateTab (db : DB) (userId budgetId tabId : Nat) (input : UpdateTabInput) :
    Resp Tab × DB :=
  if !verifyTabOwnership db budgetId tabId userId then
    (Resp.err 404 "Not found"
      "Tab not found or you do not have permission to access it", db)
  else if nameGivenEmpty input.name then
    (Resp.err 400 "Validation error" "Tab name cannot be empty", db)
  else if allocatedGivenNegative input.amount_allocated then
    (Resp.err 400 "Validation error"
      "Amount allocated must be a valid number >= 0", db)
  else if dupRename db budgetId tabId (input.name.map jsTrim) then
    (Resp.err 409 "Duplicate tab name"
      "A tab with this name already exists in this budget", db)
  else if noTabUpdates input then
    (Resp.err 400 "Validation error" "No valid fields to update", db)
  else
    let db1 : DB := { db with budget_tabs := db.budget_tabs.map (fun t =>
      if t.id == tabId then applyTabUpdates t input else t) }
    match db1.budget_tabs.find? (fun t => t.id == tabId) with
    | some t => (Resp.ok 200 t, db1)
    | none => (Resp.err 500 "Database error" "Failed to update tab", db1)

/-- Inputs of POST /api/budgets/[id]/expenses. -/
structure CreateExpenseInput where
  tab_id : Option Nat
  amount : Option Rat
  description : Option String
  expense_date : Option String
deriving DecidableEq, Repr

/-- Fresh expense id, standing in for gen_random_uuid(). -/
def freshExpenseId (db : DB) : Nat :=
  (db.expenses.map (fun e => e.id)).foldr max 0 + 1

/-- Amount rejection `!amount || isNaN(parseFloat(amount)) || parseFloat(amount) <= 0`
on expense creation: a missing amount is rejected, a zero amount is falsy
and rejected, and a nonpositive amount is rejected. -/
def expenseAmountRejected (a : Option Rat) : Bool :=
  match a with
  | none => true
  | some q => q == 0 || q ≤ 0

/-- POST /api/budgets/[id]/expenses: ownership guard, tab-id presence,
amount validation, the check that the tab belongs to the stated budget,
then the insert with `expense_date || today`. -/
def createExpense (db : DB) (userId budgetId : Nat) (input : CreateExpenseInput)
    (today : String) : Resp Expense × DB :=
  if !verifyBudgetOwnership db budgetId userId then
    (budgetNotFound, db)
  else
    match input.tab_id with
    | none => (Resp.err 400 "Validation error" "Tab ID is required", db)
    | some tabId =>
      if expenseAmountRejected input.amount then
        (Resp.err 400 "Validation error" "Amount must be a positive number", db)
      else
        match db.budget_tabs.find? (fun t => t.id == tabId && t.budget_id == budgetId) with
        | none =>
          (Resp.err 404 "Validation error"
            "Tab not found or does not belong to this budget", db)
        | some _ =>
          let e : Expense :=
            { id := freshExpenseId db
              budget_id := budgetId
              tab_id := tabId
              user_id := userId
              amount := input.amount.getD 0
              description := normDescription input.description
              expense_date :=
                match input.expense_date with
                | some d => if d = "" then today else d
                | none => today }
          (Resp.ok 201 e, { db with expenses := db.expenses ++ [e] })

/-- Outcome of the support-request insert into the store, as seen by the
contact handler: success, or an error with a code and a message. -/
inductive InsertOutcome where
  | ok
  | err (code : String) (message : String)
deriving DecidableEq, Repr

/-- Matching of a pattern at the head of a character list. -/
def leadsWith : List Char → List Char → Bool
  | [], _ => true
  | _ :: _, [] => false
  | p :: ps, c :: cs => p == c && leadsWith ps cs

/-- Occurrence of a pattern anywhere in a character list. -/
def hasSub (pat : List Char) : List Char → Bool
  | [] => leadsWith pat []
  | c :: cs => leadsWith pat (c :: cs) || hasSub pat cs

/-- Substring test used for `dbError.message?.includes('does not exist')`. -/
def containsSub (s pat : String) : Bool :=
  hasSub pat.data s.data

/-- Missing-table detection from pages/api/support/contact.js: Postgres
code 42P01, or a message mentioning that something does not exist. -/
def missingTableError (code msg : String) : Bool :=
  code == "42P01" || containsSub msg "does not exist"

/-- Required-field check `!field || field.trim() === ''`. -/
def fieldMissing (s : Option String) : Bool :=
  match s with
  | none => true
  | some t => jsTrim t == ""

/-- POST /api/support/contact from pages/api/support/contact.js: subject
and message validation, then the insert outcome; a missing-table error is
surfaced as a 500, every other insert failure is logged and swallowed,
returning the same success body as the success path. -/
def supportContact (subject message : Option String) (store : InsertOutcome) :
    Resp Unit :=
  if fieldMissing subject then
    Resp.err 400 "Validation error" "Subject is required"
  else if fieldMissing message then
    Resp.err 400 "Validation error" "Message is required"
  else
    match store with
    | .ok => Resp.ok 200 ()
    | .err code emsg =>
      if missingTableError code emsg then
        Resp.err 500 "Database configuration error"
          "Support requests table not found. Please ensure migrations have been applied to your database."
      else Resp.ok 200 ()

/-- The caller owns no budget row with the given id: either no such row
exists, or every such row belongs to another user.  This is the
precondition under which the handlers answer with the shared 404 body. -/
def budgetNotOwned (db : DB) (callerId budgetId : Nat) : Prop :=
  ∀ b ∈ db.budgets, b.id = budgetId → b.user_id ≠ callerId

instance (db : DB) (callerId budgetId : Nat) :
    Decidable (budgetNotOwned db callerId budgetId) := by
  unfold budgetNotOwned; infer_instance

/-- Scenario database: user 1 owns budget 1 ("Trip", USD) with tab "Hotel"
(amount_allocated 500, position 0) and one stored expense of 120 against
that tab dated 2024-06-01.  The user's active budget is budget 1. -/
def c1db : DB :=
  { profiles := [{ id := 1, budget_id := some 1 }]
    budgets := [{ id := 1, user_id := 1, name := "Trip", description := none,
                  currency_code := "USD" }]
    budget_tabs := [{ id := 1, budget_id := 1, name := "Hotel", description := none,
                      color := none, amount_allocated := 500, position := 0 }]
    expenses := [{ id := 1, budget_id := 1, tab_id := 1, user_id := 1, amount := 120,
                   description := none, expense_date := "2024-06-01" }] }

/-- Fixture database: one profile (user 1) with no active budget, owning
budget 1. -/
def c8db : DB :=
  { profiles := [{ id := 1, budget_id := none }]
    budgets := [{ id := 1, user_id := 1, name := "Main", description := none,
                  currency_code := "USD" }]
    budget_tabs := []
    expenses := [] }

/-- Fixture database: user 1 owns budgets 1 and 2; tab "Food" (id 1) lives
in budget 1 and tab "Gear" (id 2) lives in budget 2. -/
def twoBudgetDb : DB :=
  { profiles := [{ id := 1, budget_id := some 1 }]
    budgets := [{ id := 1, user_id := 1, name := "Main", description := none,
                  currency_code := "USD" },
                { id := 2, user_id := 1, name := "Side", description := none,
                  currency_code := "USD" }]
    budget_tabs := [{ id := 1, budget_id := 1, name := "Food", description := none,
                      color := none, amount_allocated := 10, position := 0 },
                    { id := 2, budget_id := 2, name := "Gear", description := none,
                      color := none, amount_allocated := 5, position := 0 }]
    expenses := [] }

/-- Totals object of a get-budget response, when the response is a success. -/
def respTotals (r : Resp BudgetView) : Option Totals :=
  match r with
  | Resp.ok _ v => some v.totals
  | Resp.err _ _ _ => none

/-- Create-budget input with a fixed name and the given currency code. -/
def mkCreateIn (c : String) : CreateBudgetInput :=
  { name := some "B", description := none, currency_code := some c }

/-- Update-budget input carrying only the given currency code. -/
def mkUpdateIn (c : String) : UpdateBudgetInput :=
  { name := none, description := none, currency_code := some c }

/-- Currency code stored by a successful budget create or update. -/
def createdCurrency (r : Resp Budget × DB) : Option String :=
  match r.1 with
  | Resp.ok _ b => some b.currency_code
  | Resp.err _ _ _ => none

/-- Tab-creation input carrying only a name: every optional field unset. -/
def simpleTabInput (n : String) : CreateTabInput :=
  { name := some n, description := none, amount_allocated := none, color := none,
    position := none }

/-- Tab-creation input carrying a name and an allocation. -/
def allocTabInput (n : String) (a : Rat) : CreateTabInput :=
  { name := some n, description := none, amount_allocated := some a,
    color := none, position := none }

/-- Tab-update input carrying only an allocation. -/
def allocTabUpdate (a : Rat) : UpdateTabInput :=
  { name := none, description := none, amount_allocated := some a,
    color := none, position := none }

/-- Expense-creation input carrying a tab id and an amount. -/
def amountExpenseInput (tid : Nat) (a : Rat) : CreateExpenseInput :=
  { tab_id := some tid, amount := some a, description := none,
    expense_date := none }

/-- Fixture database: user 1 owns budget 1, which already has two tabs at
positions 0 and 1. -/
def c10db : DB :=
  { profiles := [{ id := 1, budget_id := some 1 }]
    budgets := [{ id := 1, user_id := 1, name := "Main", description := none,
                  currency_code := "USD" }]
    budget_tabs := [{ id := 1, budget_id := 1, name := "Rent", description := none,
                      color := none, amount_allocated := 900, position := 0 },
                    { id := 2, budget_id := 1, name := "Fun", description := none,
                      color := none, amount_allocated := 100, position := 1 }]
    expenses := [] }

section ClaimProofs

attribute [local semireducible] Rat.add Rat.sub Rat.mul Rat.inv Rat.ofScientific

/-- C1: in the scenario of a budget with one tab of amount_allocated 500 and
one stored expense of amount 120 against that tab, the stored expenses of
the budget do sum to 120, yet the get-budget operation returns
totals.allocated = 500, totals.spent = 0 and totals.left = 500 — not
spent = 120 and left = 380 as the claim states — because the handler
hardcodes per-tab spending to zero instead of aggregating the expenses
table. -/
theorem c1_get_budget_totals_spent_stubbed_zero :
    ((expensesOf c1db 1).map (fun e => e.amount)).sum = 120 ∧
    respTotals (getBudget c1db 1 1) = some { allocated := 500, spent := 0, left := 500 } ∧
    respTotals (getBudget c1db 1 1) ≠ some { allocated := 500, spent := 120, left := 380 } :=
  ⟨by decide, by decide, by decide⟩

/-- C8: budget creation and budget update accept the currency codes "USD",
"EUR" and "GBP" (storing them verbatim) and reject "us", "USDX" and "12A"
with a 400 validation error, per the `^[A-Z]{3}$` check. -/
theorem c8_currency_code_validation :
    createdCurrency (createBudget c8db 1 (mkCreateIn "USD")) = some "USD" ∧
    createdCurrency (createBudget c8db 1 (mkCreateIn "EUR")) = some "EUR" ∧
    createdCurrency (createBudget c8db 1 (mkCreateIn "GBP")) = some "GBP" ∧
    (createBudget c8db 1 (mkCreateIn "us")).1 = Resp.err 400 "Validation error"
      "Currency code must be a valid 3-letter ISO 4217 code (e.g., USD, EUR, GBP)" ∧
    (createBudget c8db 1 (mkCreateIn "USDX")).1 = Resp.err 400 "Validation error"
      "Currency code must be a valid 3-letter ISO 4217 code (e.g., USD, EUR, GBP)" ∧
    (createBudget c8db 1 (mkCreateIn "12A")).1 = Resp.err 400 "Validation error"
      "Currency code must be a valid 3-letter ISO 4217 code (e.g., USD, EUR, GBP)" ∧
    createdCurrency (updateBudget c8db 1 1 (mkUpdateIn "USD")) = some "USD" ∧
    createdCurrency (updateBudget c8db 1 1 (mkUpdateIn "EUR")) = some "EUR" ∧
    createdCurrency (updateBudget c8db 1 1 (mkUpdateIn "GBP")) = some "GBP" ∧
    (updateBudget c8db 1 1 (mkUpdateIn "us")).1 = Resp.err 400 "Validation error"
      "Currency code must be a valid 3-letter ISO 4217 code" ∧
    (updateBudget c8db 1 1 (mkUpdateIn "USDX")).1 = Resp.err 400 "Validation error"
      "Currency code must be a valid 3-letter ISO 4217 code" ∧
    (updateBudget c8db 1 1 (mkUpdateIn "12A")).1 = Resp.err 400 "Validation error"
      "Currency code must be a valid 3-letter ISO 4217 code" :=
  ⟨by decide, by decide, by decide, by decide, by decide, by decide,
    by decide, by decide, by decide, by decide, by decide, by decide⟩

/-- C9: when the subject and message are nonempty and the support-request
insert fails with any store error that is not detected as a missing-table
error, the contact handler still answers 200 success; no error surfaces to
the caller. -/
theorem c9_support_contact_swallows_store_errors
    (subject msgBody code emsg : String)
    (hs : jsTrim subject ≠ "") (hm : jsTrim msgBody ≠ "")
    (hc : code ≠ "42P01") (hmt : containsSub emsg "does not exist" = false) :
    supportContact (some subject) (some msgBody) (InsertOutcome.err code emsg) =
      Resp.ok 200 () := by
  have h1 : fieldMissing (some subject) = false := by simp [fieldMissing, hs]
  have h2 : fieldMissing (some msgBody) = false := by simp [fieldMissing, hm]
  have h3 : missingTableError code emsg = false := by
    simp [missingTableError, hc, hmt]
  simp [supportContact, h1, h2, h3]

/-- Witness for C9 at a concrete input: a duplicate-key store error (code
23505) is swallowed and the handler answers 200 success. -/
theorem c9_support_contact_swallows_store_errors_witness :
    jsTrim "Help" ≠ "" ∧ jsTrim "It broke" ≠ "" ∧ "23505" ≠ "42P01" ∧
    containsSub "duplicate key value" "does not exist" = false ∧
    supportContact (some "Help") (some "It broke")
      (InsertOutcome.err "23505" "duplicate key value") = Resp.ok 200 () :=
  ⟨by decide, by decide, by decide, by decide,
    c9_support_contact_swallows_store_errors "Help" "It broke" "23505"
      "duplicate key value" (by decide) (by decide) (by decide) (by decide)⟩

/-- When no budget row with the given id belongs to the caller, the shared
ownership check fails. -/
theorem verifyBudgetOwnership_eq_false (db : DB) (callerId budgetId : Nat)
    (h : budgetNotOwned db callerId budgetId) :
    verifyBudgetOwnership db budgetId callerId = false := by
  unfold verifyBudgetOwnership findBudget
  cases hf : db.budgets.find? (fun b => b.id == budgetId) with
  | none => rfl
  | some b =>
    have hb := List.find?_some hf
    have hmem : b ∈ db.budgets := List.mem_of_find?_eq_some hf
    simp only [beq_iff_eq] at hb
    have : b.user_id ≠ callerId := h b hmem hb
    simpa using this

/-- C2: for an authenticated caller addressing a budget it does not own —
including an id with no budget row at all — every budget-scoped operation
(get, update, delete, create-tab, create-expense) answers with the one
shared not-found body: status 404, error "Not found", and a message that
does not reveal whether the budget exists; no forbidden-specific error is
ever produced. -/
theorem c2_cross_owner_indistinguishable_not_found
    (db : DB) (callerId budgetId : Nat) (uIn : UpdateBudgetInput)
    (tIn : CreateTabInput) (eIn : CreateExpenseInput) (today : String)
    (h : budgetNotOwned db callerId budgetId) :
    getBudget db callerId budgetId = budgetNotFound ∧
    (updateBudget db callerId budgetId uIn).1 = budgetNotFound ∧
    (deleteBudget db callerId budgetId).1 = budgetNotFound ∧
    (createTab db callerId budgetId tIn).1 = budgetNotFound ∧
    (createExpense db callerId budgetId eIn today).1 = budgetNotFound ∧
    budgetNotFound (α := BudgetView) = Resp.err 404 "Not found"
      "Budget not found or you do not have permission to access it" := by
  have hv := verifyBudgetOwnership_eq_false db callerId budgetId h
  refine ⟨?_, ?_, ?_, ?_, ?_, rfl⟩ <;>
    simp [getBudget, updateBudget, deleteBudget, createTab, createExpense, hv]

/-- Witness for C2 at a concrete input: user 2 addressing budget 1, which
belongs to user 1, gets the shared not-found body from every operation. -/
theorem c2_cross_owner_indistinguishable_not_found_witness :
    budgetNotOwned c1db 2 1 ∧
    (getBudget c1db 2 1 = budgetNotFound ∧
      (updateBudget c1db 2 1 (mkUpdateIn "USD")).1 = budgetNotFound ∧
      (deleteBudget c1db 2 1).1 = budgetNotFound ∧
      (createTab c1db 2 1 (simpleTabInput "Food")).1 = budgetNotFound ∧
      (createExpense c1db 2 1
        { tab_id := some 1, amount := some 5, description := none,
          expense_date := none } "2024-06-02").1 = budgetNotFound ∧
      budgetNotFound (α := BudgetView) = Resp.err 404 "Not found"
        "Budget not found or you do not have permission to access it") :=
  ⟨by decide,
    c2_cross_owner_indistinguishable_not_found c1db 2 1 (mkUpdateIn "USD")
      (simpleTabInput "Food")
      { tab_id := some 1, amount := some 5, description := none, expense_date := none }
      "2024-06-02" (by decide)⟩

/-- Refiltering a list for a predicate after keeping only its complement
yields nothing. -/
theorem filter_after_removal {α : Type} (p : α → Bool) (l : List α) :
    (l.filter (fun x => !(p x))).filter p = [] := by
  rw [List.filter_filter]
  have h : (fun a => p a && !p a) = fun _ => false := by
    funext a; cases p a <;> rfl
  rw [h, List.filter_false]

/-- Clearing or setting an active-budget reference leaves the tab table
unchanged. -/
theorem setActiveBudget_budget_tabs (db : DB) (u : Nat) (v : Option Nat) :
    (setActiveBudget db u v).budget_tabs = db.budget_tabs := rfl

/-- Clearing or setting an active-budget reference leaves the expense table
unchanged. -/
theorem setActiveBudget_expenses (db : DB) (u : Nat) (v : Option Nat) :
    (setActiveBudget db u v).expenses = db.expenses := rfl

/-- C3: deleting a budget the caller owns answers 200 and removes, through
the declared ON DELETE CASCADE behavior, every tab and every expense whose
budget_id equals the deleted budget's id: querying the tabs or the
expenses of that budget afterwards returns the empty list. -/
theorem c3_delete_budget_cascades_tabs_and_expenses
    (db : DB) (callerId budgetId : Nat)
    (hown : verifyBudgetOwnership db budgetId callerId = true) :
    (deleteBudget db callerId budgetId).1 = Resp.ok 200 () ∧
    tabsOf (deleteBudget db callerId budgetId).2 budgetId = [] ∧
    expensesOf (deleteBudget db callerId budgetId).2 budgetId = [] := by
  have htabs : ∀ d : DB, d = (deleteBudget db callerId budgetId).2 →
      d.budget_tabs = (cascadeDeleteBudget db budgetId).budget_tabs ∧
      d.expenses = (cascadeDeleteBudget db budgetId).expenses := by
    intro d hd
    subst hd
    simp only [deleteBudget, hown, Bool.not_true, Bool.false_eq_true, if_false]
    by_cases hpre : (activeBudgetOf db callerId == some budgetId) = true
    · simp [hpre, setActiveBudget_budget_tabs, setActiveBudget_expenses]
    · simp [hpre]
  obtain ⟨ht, he⟩ := htabs _ rfl
  refine ⟨?_, ?_, ?_⟩
  · simp [deleteBudget, hown]
  · rw [tabsOf, ht]
    exact filter_after_removal _ _
  · rw [expensesOf, he]
    exact filter_after_removal _ _

/-- Witness for C3 at a concrete input: user 1 deletes budget 1 of the
scenario database; its tab and expense tables are empty for that budget
afterwards. -/
theorem c3_delete_budget_cascades_tabs_and_expenses_witness :
    verifyBudgetOwnership c1db 1 1 = true ∧
    ((deleteBudget c1db 1 1).1 = Resp.ok 200 () ∧
      tabsOf (deleteBudget c1db 1 1).2 1 = [] ∧
      expensesOf (deleteBudget c1db 1 1).2 1 = []) :=
  ⟨by decide, c3_delete_budget_cascades_tabs_and_expenses c1db 1 1 (by decide)⟩

/-- Profile lookup after mapping a same-key update over the profile list:
the found row is the updated row. -/
theorem find_map_profile_update (l : List Profile) (u : Nat) (v : Option Nat) :
    (l.map (fun p => if p.id == u then { p with budget_id := v } else p)).find?
        (fun p => p.id == u) =
      (l.find? (fun p => p.id == u)).map (fun p => { p with budget_id := v }) := by
  induction l with
  | nil => rfl
  | cons x xs ih =>
    by_cases hx : (x.id == u) = true
    · rw [List.map_cons, if_pos hx,
        List.find?_cons_of_pos (p := fun q : Profile => q.id == u) _ (by exact hx),
        List.find?_cons_of_pos (p := fun q : Profile => q.id == u) _ hx]
      rfl
    · rw [List.map_cons, if_neg hx,
        List.find?_cons_of_neg (p := fun q : Profile => q.id == u) _ hx,
        List.find?_cons_of_neg (p := fun q : Profile => q.id == u) _ hx]
      exact ih

/-- Profile lookup through setActiveBudget. -/
theorem findProfile_setActiveBudget (db : DB) (u : Nat) (v : Option Nat) :
    findProfile (setActiveBudget db u v) u =
      (findProfile db u).map (fun p => { p with budget_id := v }) := by
  unfold findProfile setActiveBudget
  exact find_map_profile_update db.profiles u v

/-- Active-budget reference after setActiveBudget, when the profile row
exists. -/
theorem activeBudgetOf_setActiveBudget (db : DB) (u : Nat) (v : Option Nat)
    (p : Profile) (hp : findProfile db u = some p) :
    activeBudgetOf (setActiveBudget db u v) u = v := by
  unfold activeBudgetOf
  rw [findProfile_setActiveBudget, hp]
  rfl

/-- Active-budget reference after clearing it, whether or not the profile
row exists. -/
theorem activeBudgetOf_setActiveBudget_none (db : DB) (u : Nat) :
    activeBudgetOf (setActiveBudget db u none) u = none := by
  unfold activeBudgetOf
  rw [findProfile_setActiveBudget]
  cases findProfile db u <;> rfl

/-- C4: a user whose profile has no active-budget reference gets the newly
created budget as active (the reference equals the new budget's id), and a
user deleting the budget that is their active budget ends with a cleared
(null) reference — never a dangling one. -/
theorem c4_active_budget_set_on_create_cleared_on_delete
    (db db2 : DB) (u u2 b2 : Nat) (input : CreateBudgetInput) (p : Profile)
    (hp : findProfile db u = some p) (hnone : p.budget_id = none)
    (hname : givenName input.name = true)
    (hcur : createCurrencyBad input.currency_code = false)
    (hown : verifyBudgetOwnership db2 b2 u2 = true)
    (hact : activeBudgetOf db2 u2 = some b2) :
    (∃ nb : Budget, (createBudget db u input).1 = Resp.ok 201 nb ∧
      activeBudgetOf (createBudget db u input).2 u = some nb.id) ∧
    activeBudgetOf (deleteBudget db2 u2 b2).2 u2 = none := by
  have key : ∀ (l : List Budget) (nid : Nat),
      activeBudgetOf
        (if activeBudgetOf { db with budgets := l } u = none then
          setActiveBudget { db with budgets := l } u (some nid)
        else { db with budgets := l }) u = some nid := by
    intro l nid
    have hp1 : findProfile { db with budgets := l } u = some p := hp
    have hab : activeBudgetOf { db with budgets := l } u = none := by
      simp [activeBudgetOf, hp1, hnone]
    rw [if_pos hab]
    exact activeBudgetOf_setActiveBudget _ u _ p hp1
  constructor
  · simp only [createBudget, hp, hname, hcur, Bool.not_true, Bool.false_eq_true, if_false]
    exact ⟨_, rfl, key _ _⟩
  · simp only [deleteBudget, hown, Bool.not_true, Bool.false_eq_true, if_false]
    rw [hact]
    simp only [beq_self_eq_true, if_true]
    exact activeBudgetOf_setActiveBudget_none _ u2

/-- Witness for C4 at concrete inputs: user 1 of the fixture with no active
budget creates a budget and it becomes active; user 1 of the scenario
database deletes active budget 1 and the reference clears. -/
theorem c4_active_budget_set_on_create_cleared_on_delete_witness :
    findProfile c8db 1 = some { id := 1, budget_id := none } ∧
    givenName (some "Trip") = true ∧
    createCurrencyBad (some "USD") = false ∧
    verifyBudgetOwnership c1db 1 1 = true ∧
    activeBudgetOf c1db 1 = some 1 ∧
    ((∃ nb : Budget, (createBudget c8db 1 (mkCreateIn "USD")).1 = Resp.ok 201 nb ∧
        activeBudgetOf (createBudget c8db 1 (mkCreateIn "USD")).2 1 = some nb.id) ∧
      activeBudgetOf (deleteBudget c1db 1 1).2 1 = none) :=
  ⟨by decide, by decide, by decide, by decide, by decide,
    c4_active_budget_set_on_create_cleared_on_delete c8db c1db 1 1 1
      (mkCreateIn "USD") { id := 1, budget_id := none }
      (by decide) rfl (by decide) (by decide) (by decide) (by decide)⟩

/-- The duplicate-name lookup finds nothing when no tab of the budget
carries the name. -/
theorem find_dup_none (db : DB) (b : Nat) (nm : String)
    (hfree : ∀ t ∈ db.budget_tabs, t.budget_id = b → t.name ≠ nm) :
    db.budget_tabs.find? (fun t => t.budget_id == b && t.name == nm) = none := by
  refine List.find?_eq_none.mpr ?_
  intro t ht
  simp only [Bool.and_eq_true, beq_iff_eq, not_and]
  exact fun hb => hfree t ht hb

/-- C5: creating a tab whose name duplicates an existing tab of the same
budget answers 409 Duplicate tab name and writes nothing, while creating a
tab with that same name under a different budget of the caller, where the
name is unused, succeeds with a 201 and the new row stored. -/
theorem c5_duplicate_tab_name_conflict_scoped_per_budget
    (db : DB) (u b1 b2 : Nat) (n : String)
    (hown1 : verifyBudgetOwnership db b1 u = true)
    (hown2 : verifyBudgetOwnership db b2 u = true)
    (hn : givenName (some n) = true)
    (hdup : ∃ t ∈ db.budget_tabs, t.budget_id = b1 ∧ t.name = jsTrim n)
    (hfree : ∀ t ∈ db.budget_tabs, t.budget_id = b2 → t.name ≠ jsTrim n) :
    ((createTab db u b1 (simpleTabInput n)).1 = Resp.err 409 "Duplicate tab name"
        "A tab with this name already exists in this budget" ∧
      (createTab db u b1 (simpleTabInput n)).2 = db) ∧
    (∃ t : Tab, (createTab db u b2 (simpleTabInput n)).1 = Resp.ok 201 t ∧
      t.name = jsTrim n ∧ t ∈ (createTab db u b2 (simpleTabInput n)).2.budget_tabs) := by
  constructor
  · have hsome : (db.budget_tabs.find?
        (fun t => t.budget_id == b1 && t.name == jsTrim n)).isSome = true := by
      obtain ⟨t0, hmem, hb, hnm⟩ := hdup
      exact List.find?_isSome.mpr ⟨t0, hmem, by simp [hb, hnm]⟩
    obtain ⟨t1, hfind⟩ := Option.isSome_iff_exists.mp hsome
    constructor <;>
      simp [createTab, simpleTabInput, hown1, hn, lt_self_iff_false, hfind]
  · have hfind2 := find_dup_none db b2 (jsTrim n) hfree
    simp only [createTab, simpleTabInput, hown2, hn, Bool.not_true, Bool.false_eq_true,
      if_false, Option.getD_none, Option.getD_some, lt_self_iff_false, hfind2]
    refine ⟨_, rfl, rfl, ?_⟩
    simp

/-- Witness for C5 at a concrete input: "Food" already exists in budget 1
of the two-budget fixture, so creating it there conflicts; creating "Food"
in budget 2 succeeds. -/
theorem c5_duplicate_tab_name_conflict_scoped_per_budget_witness :
    verifyBudgetOwnership twoBudgetDb 1 1 = true ∧
    verifyBudgetOwnership twoBudgetDb 2 1 = true ∧
    givenName (some "Food") = true ∧
    (∃ t ∈ twoBudgetDb.budget_tabs, t.budget_id = 1 ∧ t.name = jsTrim "Food") ∧
    (∀ t ∈ twoBudgetDb.budget_tabs, t.budget_id = 2 → t.name ≠ jsTrim "Food") ∧
    (((createTab twoBudgetDb 1 1 (simpleTabInput "Food")).1 =
        Resp.err 409 "Duplicate tab name"
          "A tab with this name already exists in this budget" ∧
      (createTab twoBudgetDb 1 1 (simpleTabInput "Food")).2 = twoBudgetDb) ∧
     (∃ t : Tab, (createTab twoBudgetDb 1 2 (simpleTabInput "Food")).1 = Resp.ok 201 t ∧
       t.name = jsTrim "Food" ∧
       t ∈ (createTab twoBudgetDb 1 2 (simpleTabInput "Food")).2.budget_tabs)) :=
  ⟨by decide, by decide, by decide, by decide, by decide,
    c5_duplicate_tab_name_conflict_scoped_per_budget twoBudgetDb 1 1 2 "Food"
      (by decide) (by decide) (by decide) (by decide) (by decide)⟩

/-- C6: a create-expense request whose tab_id matches no tab of the stated
budget — in particular a tab belonging to a different budget — writes no
expense row and answers with the validation error naming the tab
("Tab not found or does not belong to this budget"). -/
theorem c6_expense_tab_budget_mismatch_rejected
    (db : DB) (callerId budgetId tabId : Nat) (a : Rat)
    (d ed : Option String) (today : String)
    (hown : verifyBudgetOwnership db budgetId callerId = true)
    (ha : 0 < a)
    (hmis : ∀ t ∈ db.budget_tabs, t.id = tabId → t.budget_id ≠ budgetId) :
    (createExpense db callerId budgetId
        { tab_id := some tabId, amount := some a, description := d,
          expense_date := ed } today).1 =
      Resp.err 404 "Validation error" "Tab not found or does not belong to this budget" ∧
    (createExpense db callerId budgetId
        { tab_id := some tabId, amount := some a, description := d,
          expense_date := ed } today).2 = db := by
  have hrej : expenseAmountRejected (some a) = false := by
    simp only [expenseAmountRejected, Bool.or_eq_false_iff, beq_eq_false_iff_ne, ne_eq,
      decide_eq_false_iff_not, not_le]
    exact ⟨ha.ne', ha⟩
  have hfind : db.budget_tabs.find?
      (fun t => t.id == tabId && t.budget_id == budgetId) = none := by
    refine List.find?_eq_none.mpr ?_
    intro t ht
    simp only [Bool.and_eq_true, beq_iff_eq, not_and]
    exact fun hid => hmis t ht hid
  constructor <;> simp [createExpense, hown, hrej, hfind]

/-- Witness for C6 at a concrete input: tab 2 belongs to budget 2, so
logging an expense against it under budget 1 is rejected and the expense
table stays empty. -/
theorem c6_expense_tab_budget_mismatch_rejected_witness :
    verifyBudgetOwnership twoBudgetDb 1 1 = true ∧
    (0 : Rat) < 5 ∧
    (∀ t ∈ twoBudgetDb.budget_tabs, t.id = 2 → t.budget_id ≠ 1) ∧
    ((createExpense twoBudgetDb 1 1
        { tab_id := some 2, amount := some 5, description := none,
          expense_date := none } "2024-06-01").1 =
      Resp.err 404 "Validation error" "Tab not found or does not belong to this budget" ∧
     (createExpense twoBudgetDb 1 1
        { tab_id := some 2, amount := some 5, description := none,
          expense_date := none } "2024-06-01").2 = twoBudgetDb) :=
  ⟨by decide, by decide, by decide,
    c6_expense_tab_budget_mismatch_rejected twoBudgetDb 1 1 2 5 none none
      "2024-06-01" (by decide) (by decide) (by decide)⟩

/-- C7: create-tab and update-tab reject a negative amount_allocated with a
400 validation error, create-expense rejects a zero or negative amount with
a 400 validation error, and in each rejecting case the database is
returned unchanged. -/
theorem c7_nonpositive_amounts_rejected_without_write
    (db : DB) (u b tb tid : Nat) (n : String) (a1 a2 a3 : Rat) (today : String)
    (hown : verifyBudgetOwnership db b u = true)
    (hn : givenName (some n) = true) (ha1 : a1 < 0)
    (htab : verifyTabOwnership db b tb u = true) (ha2 : a2 < 0)
    (ha3 : a3 ≤ 0) :
    ((createTab db u b (allocTabInput n a1)).1 =
      Resp.err 400 "Validation error" "Amount allocated must be a valid number >= 0" ∧
     (createTab db u b (allocTabInput n a1)).2 = db) ∧
    ((updateTab db u b tb (allocTabUpdate a2)).1 =
      Resp.err 400 "Validation error" "Amount allocated must be a valid number >= 0" ∧
     (updateTab db u b tb (allocTabUpdate a2)).2 = db) ∧
    ((createExpense db u b (amountExpenseInput tid a3) today).1 =
      Resp.err 400 "Validation error" "Amount must be a positive number" ∧
     (createExpense db u b (amountExpenseInput tid a3) today).2 = db) := by
  have hrej3 : expenseAmountRejected (some a3) = true := by
    simp [expenseAmountRejected, ha3]
  refine ⟨⟨?_, ?_⟩, ⟨?_, ?_⟩, ⟨?_, ?_⟩⟩
  · simp [createTab, allocTabInput, hown, hn, ha1]
  · simp [createTab, allocTabInput, hown, hn, ha1]
  · simp [updateTab, allocTabUpdate, htab, nameGivenEmpty, allocatedGivenNegative, ha2]
  · simp [updateTab, allocTabUpdate, htab, nameGivenEmpty, allocatedGivenNegative, ha2]
  · simp [createExpense, amountExpenseInput, hown, hrej3]
  · simp [createExpense, amountExpenseInput, hown, hrej3]

/-- Witness for C7 at concrete inputs: allocation -1 on tab creation,
allocation -2 on tab update, and amount 0 on expense creation are all
rejected against the two-budget fixture, which stays unchanged. -/
theorem c7_nonpositive_amounts_rejected_without_write_witness :
    verifyBudgetOwnership twoBudgetDb 1 1 = true ∧
    givenName (some "New") = true ∧
    ((-1 : Rat) < 0) ∧
    verifyTabOwnership twoBudgetDb 1 1 1 = true ∧
    ((-2 : Rat) < 0) ∧
    ((0 : Rat) ≤ 0) ∧
    (((createTab twoBudgetDb 1 1 (allocTabInput "New" (-1))).1 =
      Resp.err 400 "Validation error" "Amount allocated must be a valid number >= 0" ∧
      (createTab twoBudgetDb 1 1 (allocTabInput "New" (-1))).2 = twoBudgetDb) ∧
     ((updateTab twoBudgetDb 1 1 1 (allocTabUpdate (-2))).1 =
      Resp.err 400 "Validation error" "Amount allocated must be a valid number >= 0" ∧
      (updateTab twoBudgetDb 1 1 1 (allocTabUpdate (-2))).2 = twoBudgetDb) ∧
     ((createExpense twoBudgetDb 1 1 (amountExpenseInput 1 0) "2024-06-01").1 =
      Resp.err 400 "Validation error" "Amount must be a positive number" ∧
      (createExpense twoBudgetDb 1 1 (amountExpenseInput 1 0) "2024-06-01").2 = twoBudgetDb)) :=
  ⟨by decide, by decide, by decide, by decide, by decide, by decide,
    c7_nonpositive_amounts_rejected_without_write twoBudgetDb 1 1 1 1 "New"
      (-1) (-2) 0 "2024-06-01" (by decide) (by decide) (by decide) (by decide)
      (by decide) (by decide)⟩

/-- A left fold by max grows its seed. -/
theorem le_foldl_max (l : List Int) : ∀ q : Int, q ≤ l.foldl max q := by
  induction l with
  | nil => intro q; exact le_refl q
  | cons x xs ih => intro q; exact le_trans (le_max_left q x) (ih (max q x))

/-- A left fold by max dominates every list element. -/
theorem mem_le_foldl_max (l : List Int) : ∀ (q x : Int), x ∈ l → x ≤ l.foldl max q := by
  induction l with
  | nil => intro q x hx; cases hx
  | cons y ys ih =>
    intro q x hx
    rcases List.mem_cons.mp hx with h | h
    · subst h
      exact le_trans (le_max_right q x) (le_foldl_max ys (max q x))
    · exact ih (max q y) x h

/-- A left fold by max stays below any common upper bound. -/
theorem foldl_max_le (l : List Int) :
    ∀ q m : Int, q ≤ m → (∀ x ∈ l, x ≤ m) → l.foldl max q ≤ m := by
  induction l with
  | nil => intro q m hq _; exact hq
  | cons x xs ih =>
    intro q m hq h
    exact ih (max q x) m (max_le hq (h x (List.mem_cons_self x xs)))
      (fun y hy => h y (List.mem_cons_of_mem x hy))

/-- The position-maximum query answers exactly the maximum position when one
tab attains a common upper bound. -/
theorem maxPositionOf_eq_of_mem_ub (l : List Tab) (m : Int)
    (hmem : ∃ t ∈ l, t.position = m) (hub : ∀ t ∈ l, t.position ≤ m) :
    maxPositionOf l = some m := by
  unfold maxPositionOf
  cases hl : l.map (fun t => t.position) with
  | nil =>
    obtain ⟨t, ht, _⟩ := hmem
    have hmm : t.position ∈ l.map (fun t => t.position) := List.mem_map_of_mem _ ht
    rw [hl] at hmm
    cases hmm
  | cons p ps =>
    have hm_mem : m ∈ p :: ps := by
      obtain ⟨t, ht, hpos⟩ := hmem
      rw [← hl, ← hpos]
      exact List.mem_map_of_mem _ ht
    have hub2 : ∀ x ∈ p :: ps, x ≤ m := by
      intro x hx
      rw [← hl] at hx
      obtain ⟨t, ht, rfl⟩ := List.mem_map.mp hx
      exact hub t ht
    have heq : ps.foldl max p = m := by
      apply le_antisymm
      · exact foldl_max_le ps p m (hub2 p (List.mem_cons_self p ps))
          (fun y hy => hub2 y (List.mem_cons_of_mem p hy))
      · rcases List.mem_cons.mp hm_mem with h | h
        · subst h; exact le_foldl_max ps m
        · exact mem_le_foldl_max ps p m h
    show some (ps.foldl max p) = some m
    rw [heq]

/-- Computed default position over an empty tab set. -/
theorem computedTabPosition_of_empty (db : DB) (b : Nat) (h : tabsOf db b = []) :
    computedTabPosition db b = 0 := by
  unfold computedTabPosition
  rw [h]
  rfl

/-- Computed default position over a nonempty tab set with maximum m: the
`(p || 0) + 1` of the source equals m + 1. -/
theorem computedTabPosition_of_max (db : DB) (b : Nat) (m : Int)
    (hmem : ∃ t ∈ tabsOf db b, t.position = m)
    (hub : ∀ t ∈ tabsOf db b, t.position ≤ m) :
    computedTabPosition db b = m + 1 := by
  unfold computedTabPosition
  rw [maxPositionOf_eq_of_mem_ub _ m hmem hub]
  by_cases hm : m = 0
  · subst hm; rfl
  · simp [hm]

/-- C10: a tab created with position unspecified in a budget the caller
owns, under a fresh valid name, is stored with position 0 when the budget
has no tabs yet, and with (maximum existing position) + 1 when it has
some. -/
theorem c10_default_tab_position
    (db : DB) (u b : Nat) (n : String)
    (hown : verifyBudgetOwnership db b u = true)
    (hn : givenName (some n) = true)
    (hfree : ∀ t ∈ db.budget_tabs, t.budget_id = b → t.name ≠ jsTrim n) :
    ∃ t : Tab, (createTab db u b (simpleTabInput n)).1 = Resp.ok 201 t ∧
      t.position = computedTabPosition db b ∧
      (tabsOf db b = [] → t.position = 0) ∧
      (∀ m : Int, (∃ t0 ∈ tabsOf db b, t0.position = m) →
        (∀ t0 ∈ tabsOf db b, t0.position ≤ m) → t.position = m + 1) := by
  have hfind := find_dup_none db b (jsTrim n) hfree
  simp only [createTab, simpleTabInput, hown, hn, Bool.not_true, Bool.false_eq_true,
    if_false, Option.getD_none, Option.getD_some, lt_self_iff_false, hfind]
  refine ⟨_, rfl, rfl, ?_, ?_⟩
  · intro h
    exact computedTabPosition_of_empty db b h
  · intro m hmem hub
    exact computedTabPosition_of_max db b m hmem hub

/-- Witness for C10 at a concrete input: with tabs at positions 0 and 1 in
budget 1 of the fixture, a tab created with position unset gets position
1 + 1 = 2. -/
theorem c10_default_tab_position_witness :
    verifyBudgetOwnership c10db 1 1 = true ∧
    givenName (some "New") = true ∧
    (∀ t ∈ c10db.budget_tabs, t.budget_id = 1 → t.name ≠ jsTrim "New") ∧
    (∃ t : Tab, (createTab c10db 1 1 (simpleTabInput "New")).1 = Resp.ok 201 t ∧
      t.position = computedTabPosition c10db 1 ∧
      (tabsOf c10db 1 = [] → t.position = 0) ∧
      (∀ m : Int, (∃ t0 ∈ tabsOf c10db 1, t0.position = m) →
        (∀ t0 ∈ tabsOf c10db 1, t0.position ≤ m) → t.position = m + 1)) :=
  ⟨by decide, by decide, by decide,
    c10_default_tab_position c10db 1 1 "New" (by decide) (by decide) (by decide)⟩

end ClaimProofs

end BudgetApp
